import Mathlib

/-!
Shallow embedding of the z-index manager (`ZIndexManager.ts`) of the
zindex-manager repository, together with proofs of the specified
properties of its operations.

The TypeScript class owns a doubly linked list of `ZIndexNode`s reachable
from `head` together with a `Map` from block id to node (`blockMap`),
kept in sync by the operations.  We embed a store state as the front-to-tail
sequence of its nodes; the `Map` lookup corresponds to finding the node with
the given id in that sequence, and `Map` key uniqueness corresponds to the
ids of the sequence being pairwise distinct (`WF` below).  Since the state is
mutated in place and `updateRenderOrders` can throw, a state-changing
operation is embedded as a function returning the raised outcome (as an
`Except`) together with the state the store holds afterwards.

Per the source, `moveToFront` is an unimplemented stub (`return 0;`) and
`updateRenderOrders` is `throw new Error('Not implemented')`; both are
embedded exactly as written.
-/

/-- One node of the manager's linked list (`class ZIndexNode`): the block id,
the fixed z-index passed to the constructor, and the render order
(initialised to 9000 in the source). `prev`/`next` are represented by the
node's position in the state's sequence. -/
structure ZIndexNode where
  blockId : String
  fixedZIndex : Int
  renderOrder : Int
deriving Repr, DecidableEq

/-- The state of a `ZIndexManager`: the nodes of the linked list, listed from
`head` to the tail. -/
structure ZIndexManager where
  nodes : List ZIndexNode
deriving Repr, DecidableEq

/-- The field `baseRenderOrder = 9000` of the source. -/
def baseRenderOrder : Int := 9000

/-- The freshly constructed manager: `head = null`, empty `blockMap`. -/
def ZIndexManager.emptyStore : ZIndexManager := ⟨[]⟩

/-- Lookup `this.blockMap.get(blockId)`: the node with the given id, if any.
In the embedding the map is represented by the node sequence itself. -/
def blockMapGet (m : ZIndexManager) (blockId : String) : Option ZIndexNode :=
  m.nodes.find? fun n => n.blockId == blockId

/-- Whether the id is currently tracked (present as a key of `blockMap`). -/
def isTracked (m : ZIndexManager) (blockId : String) : Bool :=
  (blockMapGet m blockId).isSome

/-- JavaScript `ToInt32`: reduce an integer to the signed 32-bit value with
the same low 32 bits.  `x & 0xffffffff` in the source performs exactly this
conversion (`0xffffffff` is `-1` as an int32, and `x & -1 = ToInt32(x)`). -/
def toInt32 (n : Int) : Int :=
  let m := n % 4294967296
  if m < 2147483648 then m else m - 4294967296

/-- One iteration of the hash loop of `generateFixedZIndex`:
`hash = ((hash << 5) - hash + blockId.charCodeAt(i)) & 0xffffffff`.
`hash << 5` is the int32 shift (so `ToInt32 (hash * 32)`), the subtraction
and addition are exact, and the final `& 0xffffffff` is `ToInt32`. -/
def hashStep (hash : Int) (c : Nat) : Int :=
  toInt32 (toInt32 (hash * 32) - hash + (c : Int))

/-- `private generateFixedZIndex(blockId)`: fold the hash step over the
character codes of the id starting from 0, then
`Math.abs(hash) % 8000 + 1000`.  Characters are modelled by their Unicode
code points (`charCodeAt` agrees on the basic multilingual plane). -/
def generateFixedZIndex (blockId : String) : Int :=
  (((blockId.data.foldl (fun hash c => hashStep hash c.toNat) 0).natAbs % 8000 : Nat) : Int)
    + 1000

/-- `public moveToFront(blockId)`: the source is the stub `return 0;` — it
returns 0 and does not touch the store. -/
def ZIndexManager.moveToFront (m : ZIndexManager) (_blockId : String) :
    Int × ZIndexManager :=
  (0, m)

/-- `public getBlocksNeedingUpdate()`: walk the list from `head`, collecting
`{blockId, renderOrder}` pairs. -/
def ZIndexManager.getBlocksNeedingUpdate (m : ZIndexManager) :
    List (String × Int) :=
  m.nodes.map fun n => (n.blockId, n.renderOrder)

/-- `private updateRenderOrders()`: the source is
`throw new Error('Not implemented')`, so the call always raises. -/
def updateRenderOrders : Except String Unit :=
  Except.error "Not implemented"

/-- `public getZIndex(blockId)`: the tracked node's `fixedZIndex`, or
`generateFixedZIndex(blockId)` when the id is not tracked. -/
def ZIndexManager.getZIndex (m : ZIndexManager) (blockId : String) : Int :=
  match blockMapGet m blockId with
  | none => generateFixedZIndex blockId
  | some node => node.fixedZIndex

/-- `public getRenderOrder(blockId)`: the tracked node's `renderOrder`, or
`baseRenderOrder` when the id is not tracked. -/
def ZIndexManager.getRenderOrder (m : ZIndexManager) (blockId : String) : Int :=
  match blockMapGet m blockId with
  | some node => node.renderOrder
  | none => baseRenderOrder

/-- `public removeBlock(blockId)`: if the id is untracked, return at once.
Otherwise unlink the node (patching `head`, `prev.next` and `next.prev`,
which in the sequence embedding is erasing the node from the sequence),
delete the id from `blockMap`, and then call `updateRenderOrders()` — whose
outcome (always a raise in this source) is the first component. -/
def ZIndexManager.removeBlock (m : ZIndexManager) (blockId : String) :
    Except String Unit × ZIndexManager :=
  match blockMapGet m blockId with
  | none => (Except.ok (), m)
  | some _ =>
    (updateRenderOrders, ⟨m.nodes.eraseP fun n => n.blockId == blockId⟩)

/-- `public getBlockCount()`: `this.blockMap.size`. -/
def ZIndexManager.getBlockCount (m : ZIndexManager) : Nat :=
  m.nodes.length

/-- `public getAllBlocks()`: walk the list from `head`, collecting ids. -/
def ZIndexManager.getAllBlocks (m : ZIndexManager) : List String :=
  m.nodes.map fun n => n.blockId

/-- `public reset()`: `head = null`, `blockMap.clear()`. -/
def ZIndexManager.reset (_ : ZIndexManager) : ZIndexManager := ⟨[]⟩

/-- Representation invariant inherited from `Map` key uniqueness: no two
nodes of the store share a block id. -/
def WF (m : ZIndexManager) : Prop :=
  m.nodes.Pairwise fun a b => a.blockId ≠ b.blockId

/-- One public operation of the manager, for reasoning about operation
sequences. -/
inductive Op where
  | moveToFront (blockId : String)
  | getBlocksNeedingUpdate
  | getZIndex (blockId : String)
  | getRenderOrder (blockId : String)
  | removeBlock (blockId : String)
  | getBlockCount
  | getAllBlocks
  | reset
deriving Repr, DecidableEq

/-- The effect of one public operation on the store state (queries return
values but leave the state unchanged). -/
def applyOp (m : ZIndexManager) : Op → ZIndexManager
  | .moveToFront id => (m.moveToFront id).2
  | .getBlocksNeedingUpdate => m
  | .getZIndex _ => m
  | .getRenderOrder _ => m
  | .removeBlock id => (m.removeBlock id).2
  | .getBlockCount => m
  | .getAllBlocks => m
  | .reset => m.reset

/-- The state reached by running a sequence of public operations from the
freshly constructed (empty) manager. -/
def runOps (ops : List Op) : ZIndexManager :=
  ops.foldl applyOp ZIndexManager.emptyStore

/-! ## Helper lemmas -/

/-- Erasing the node carrying id `x` from a list whose ids are pairwise
distinct leaves a list in which `x` occurs as no node's id. -/
theorem blockId_not_mem_eraseP (x : String) (l : List ZIndexNode)
    (hwf : l.Pairwise fun a b => a.blockId ≠ b.blockId) :
    x ∉ (l.eraseP fun n => n.blockId == x).map (fun n => n.blockId) := by
  induction l with
  | nil => simp [List.eraseP]
  | cons a l ih =>
    rcases List.pairwise_cons.1 hwf with ⟨ha, hl⟩
    by_cases h : a.blockId = x
    · rw [List.eraseP_cons_of_pos (by simp [h])]
      simp only [List.mem_map, not_exists, not_and]
      intro n hn hEq
      exact ha n hn (h.trans hEq.symm)
    · rw [List.eraseP_cons_of_neg (by simp [h])]
      simp only [List.map_cons, List.mem_cons, not_or]
      exact ⟨fun hEq => h hEq.symm, ih hl⟩

/-- After erasing the node carrying id `x` from a duplicate-free list, a map
lookup of `x` fails. -/
theorem blockMapGet_eraseP_eq_none (x : String) (l : List ZIndexNode)
    (hwf : l.Pairwise fun a b => a.blockId ≠ b.blockId) :
    (l.eraseP fun n => n.blockId == x).find? (fun n => n.blockId == x) = none := by
  rw [List.find?_eq_none]
  intro n hn
  simp only [beq_iff_eq]
  intro hEq
  exact blockId_not_mem_eraseP x l hwf (List.mem_map.2 ⟨n, hn, hEq⟩)

/-- Evaluating a single public operation on the empty store leaves the store
empty: the `moveToFront` stub does not mutate, `removeBlock` finds no node,
`reset` clears an already clear store, and queries do not mutate. -/
theorem applyOp_emptyStore (op : Op) :
    applyOp ZIndexManager.emptyStore op = ZIndexManager.emptyStore := by
  cases op <;> rfl

/-- Every sequence of public operations run from the empty store ends in the
empty store (no operation of this source ever inserts a node). -/
theorem runOps_eq_emptyStore :
    ∀ ops : List Op, runOps ops = ZIndexManager.emptyStore
  | [] => rfl
  | op :: ops => by
    unfold runOps
    rw [List.foldl_cons, applyOp_emptyStore]
    exact runOps_eq_emptyStore ops

/-! ## Claim theorems -/

/-- C1: the claim says that after `moveToFront(x)`, `x` is the first element
of `allIdsInOrder()` with rank `baseRank` (9000).  The source's
`moveToFront` is the stub `return 0;`: on the empty store, calling
`moveToFront "a"` returns 0 and leaves `getAllBlocks()` empty, so `"a"` is
not the front element (the order has no elements at all). -/
theorem moveToFront_stub_breaks_front_guarantee :
    ((ZIndexManager.emptyStore.moveToFront "a").2).getAllBlocks = []
    ∧ (ZIndexManager.emptyStore.moveToFront "a").1 = 0 :=
  ⟨rfl, rfl⟩

/-- C2: the claim says every public operation completes without raising.
On a store tracking the single id `"a"`, `removeBlock "a"` reaches
`updateRenderOrders()`, which is `throw new Error('Not implemented')`:
the operation raises. -/
theorem removeBlock_raises_not_implemented :
    ((ZIndexManager.mk [ZIndexNode.mk "a" 4648 9000]).removeBlock "a").1
      = Except.error "Not implemented" :=
  rfl

/-- C3: on a store with pairwise distinct ids, removing a tracked id leaves
it absent from `getAllBlocks()` and decreases `getBlockCount()` by exactly
one, and removing an untracked id leaves the store unchanged.  (The same
call also raises — see the error-handling theorems — but the store state
after the call is as the claim states.) -/
theorem removeBlock_correct (m : ZIndexManager) (x : String) (hwf : WF m) :
    (isTracked m x = true →
      x ∉ ((m.removeBlock x).2).getAllBlocks
      ∧ ((m.removeBlock x).2).getBlockCount + 1 = m.getBlockCount)
    ∧ (isTracked m x = false → (m.removeBlock x).2 = m) := by
  constructor
  · intro ht
    rw [isTracked, Option.isSome_iff_exists] at ht
    obtain ⟨node, hfind⟩ := ht
    have hfind' : m.nodes.find? (fun n => n.blockId == x) = some node := hfind
    have hmem : node ∈ m.nodes := List.mem_of_find?_eq_some hfind'
    have hp := List.find?_some hfind'
    simp only [ZIndexManager.removeBlock, hfind]
    constructor
    · exact blockId_not_mem_eraseP x m.nodes hwf
    · exact List.length_eraseP_add_one hmem hp
  · intro hf
    rw [isTracked] at hf
    have hf' : blockMapGet m x = none :=
      Option.not_isSome_iff_eq_none.mp (by simp [hf])
    simp only [ZIndexManager.removeBlock, hf']

/-- Closed instance of `removeBlock_correct`: a one-node store tracking
`"a"` has distinct ids; removing `"a"` empties the order and drops the
count from 1 to 0, and removing the untracked `"b"` changes nothing. -/
theorem removeBlock_correct_witness :
    "a" ∉ (((ZIndexManager.mk [ZIndexNode.mk "a" 4648 9000]).removeBlock
        "a").2).getAllBlocks
    ∧ (((ZIndexManager.mk [ZIndexNode.mk "a" 4648 9000]).removeBlock
        "a").2).getBlockCount + 1
      = (ZIndexManager.mk [ZIndexNode.mk "a" 4648 9000]).getBlockCount
    ∧ ((ZIndexManager.mk [ZIndexNode.mk "a" 4648 9000]).removeBlock "b").2
      = ZIndexManager.mk [ZIndexNode.mk "a" 4648 9000] := by
  obtain ⟨h1, h2⟩ :=
    (removeBlock_correct (ZIndexManager.mk [ZIndexNode.mk "a" 4648 9000]) "a"
      (by simp [WF])).1 (by decide)
  exact ⟨h1, h2,
    (removeBlock_correct (ZIndexManager.mk [ZIndexNode.mk "a" 4648 9000]) "b"
      (by simp [WF])).2 (by decide)⟩

/-- C4: the claim says `moveToFront(id)` on an untracked id creates and
inserts a node so that the id becomes tracked and the count rises by one.
The source's `moveToFront` is the stub `return 0;`: on the empty store,
after `moveToFront "a"` the id `"a"` is still untracked and the count is
still 0. -/
theorem moveToFront_stub_inserts_nothing :
    isTracked ((ZIndexManager.emptyStore.moveToFront "a").2) "a" = false
    ∧ ((ZIndexManager.emptyStore.moveToFront "a").2).getBlockCount = 0 :=
  ⟨rfl, rfl⟩

/-- C5: in every state reachable from the empty store by public operations,
the ranks read along `getAllBlocks()` are strictly decreasing, so no two
tracked items share a rank.  (In this source only the empty store is
reachable, because `moveToFront` is a stub that never inserts a node, so
the walked sequence is always empty.) -/
theorem reachable_ranks_strictly_decreasing (ops : List Op) :
    (((runOps ops).getAllBlocks).map ((runOps ops).getRenderOrder)).Pairwise
        (fun a b => a > b)
    ∧ (((runOps ops).getAllBlocks).map ((runOps ops).getRenderOrder)).Pairwise
        (fun a b => a ≠ b) := by
  rw [runOps_eq_emptyStore]
  constructor <;> exact List.Pairwise.nil

/-- C6: `reset()` only assigns `head = null` and clears the map, so it
cannot fail; afterwards the count is 0 and the order is empty, and a second
`reset()` yields the same state as the first (idempotence). -/
theorem reset_correct (m : ZIndexManager) :
    (m.reset).getBlockCount = 0
    ∧ (m.reset).getAllBlocks = []
    ∧ (m.reset).reset = m.reset :=
  ⟨rfl, rfl, rfl⟩

/-- C7: `getRenderOrder` returns the tracked node's `renderOrder` when the
id is present in `blockMap`, and `baseRenderOrder` — which is 9000 — when
it is not. -/
theorem getRenderOrder_spec (m : ZIndexManager) (blockId : String) :
    baseRenderOrder = 9000
    ∧ (∀ node, blockMapGet m blockId = some node →
        m.getRenderOrder blockId = node.renderOrder)
    ∧ (blockMapGet m blockId = none →
        m.getRenderOrder blockId = baseRenderOrder) := by
  refine ⟨rfl, ?_, ?_⟩
  · intro node h
    simp only [ZIndexManager.getRenderOrder, h]
  · intro h
    simp only [ZIndexManager.getRenderOrder, h]

/-- Closed instance of `getRenderOrder_spec`: on a store tracking `"a"`
with render order 8999 the query returns 8999, and on the empty store the
query for `"b"` returns 9000. -/
theorem getRenderOrder_spec_witness :
    (ZIndexManager.mk [ZIndexNode.mk "a" 4648 8999]).getRenderOrder "a" = 8999
    ∧ ZIndexManager.emptyStore.getRenderOrder "b" = 9000 := by
  constructor
  · exact (getRenderOrder_spec (ZIndexManager.mk [ZIndexNode.mk "a" 4648 8999])
      "a").2.1 (ZIndexNode.mk "a" 4648 8999) (by decide)
  · exact ((getRenderOrder_spec ZIndexManager.emptyStore "b").2.2 rfl).trans rfl

/-- C8: `generateFixedZIndex` is a pure function of the id — evaluating it
twice gives the same value — and its result always lies in the range
`[1000, 9000)`: the absolute value of the 32-bit hash is reduced mod 8000
and offset by 1000. -/
theorem generateFixedZIndex_deterministic_in_range (blockId : String) :
    generateFixedZIndex blockId = generateFixedZIndex blockId
    ∧ 1000 ≤ generateFixedZIndex blockId
    ∧ generateFixedZIndex blockId < 9000 := by
  refine ⟨rfl, ?_, ?_⟩
  · have h := Int.ofNat_nonneg
      ((blockId.data.foldl (fun hash c => hashStep hash c.toNat) 0).natAbs % 8000)
    unfold generateFixedZIndex
    omega
  · have h := Nat.mod_lt
      ((blockId.data.foldl (fun hash c => hashStep hash c.toNat) 0).natAbs)
      (show 0 < 8000 by norm_num)
    unfold generateFixedZIndex
    omega

/-- C9: the block ids listed by `getBlocksNeedingUpdate()` are exactly the
ids listed by `getAllBlocks()`, in the same front-to-back order (both walk
the same list from `head`). -/
theorem getBlocksNeedingUpdate_ids_eq_getAllBlocks (m : ZIndexManager) :
    m.getBlocksNeedingUpdate.map Prod.fst = m.getAllBlocks := by
  simp only [ZIndexManager.getBlocksNeedingUpdate, ZIndexManager.getAllBlocks,
    List.map_map]
  rfl

/-- C10: on a store with pairwise distinct ids, `removeBlock` on a tracked
id unlinks the node and deletes the map entry before calling
`updateRenderOrders()`; that call raises (`Not implemented`), yet the id is
already absent from the map and from `getAllBlocks()` in the state the
store is left in. -/
theorem removeBlock_removes_despite_raising (m : ZIndexManager) (x : String)
    (hwf : WF m) (ht : isTracked m x = true) :
    (m.removeBlock x).1 = Except.error "Not implemented"
    ∧ blockMapGet (m.removeBlock x).2 x = none
    ∧ x ∉ ((m.removeBlock x).2).getAllBlocks := by
  rw [isTracked, Option.isSome_iff_exists] at ht
  obtain ⟨node, hfind⟩ := ht
  simp only [ZIndexManager.removeBlock, hfind]
  refine ⟨rfl, ?_, ?_⟩
  · exact blockMapGet_eraseP_eq_none x m.nodes hwf
  · exact blockId_not_mem_eraseP x m.nodes hwf

/-- Closed instance of `removeBlock_removes_despite_raising` on a two-node
store tracking `"a"` and `"b"`: removing `"a"` raises, yet afterwards
`"a"` is gone from the map and from the order. -/
theorem removeBlock_removes_despite_raising_witness :
    ((ZIndexManager.mk [ZIndexNode.mk "a" 4648 9000,
        ZIndexNode.mk "b" 5000 8999]).removeBlock "a").1
      = Except.error "Not implemented"
    ∧ blockMapGet ((ZIndexManager.mk [ZIndexNode.mk "a" 4648 9000,
        ZIndexNode.mk "b" 5000 8999]).removeBlock "a").2 "a" = none
    ∧ "a" ∉ (((ZIndexManager.mk [ZIndexNode.mk "a" 4648 9000,
        ZIndexNode.mk "b" 5000 8999]).removeBlock "a").2).getAllBlocks :=
  removeBlock_removes_despite_raising
    (ZIndexManager.mk [ZIndexNode.mk "a" 4648 9000, ZIndexNode.mk "b" 5000 8999])
    "a" (by simp [WF]) (by decide)
